import Mathlib

/-!
Verification of the Monkey interpreter / bytecode-compiler repository.

The development shallowly embeds, directly from the Go sources:
  * the instruction set of `code/code.go` (opcodes, operand widths, `Make`,
    operand decoding and instruction offsets);
  * the object model of `object/object.go` (as the inductive `Obj`; the Go
    `object.Object` interface value, which may be `nil`, is `Option Obj`);
  * the stack virtual machine of `vm/vm.go` (`VMState`, `push`, `pop`,
    `executeBinaryOperation`, `executeComparison`, the fetch-decode-execute
    loop `run` driven by explicit fuel);
  * the tree-walking evaluator's `evalIntegerInfixExpression` of
    `evaluator/evaluator.go`;
  * the lexer of `lexer/lexer.go` and the Pratt parser of `parser/parser.go`
    together with the `String()` printers of `ast/ast.go`.

Go runtime behaviour is made explicit: a Go `error` return is `.err`, a Go
runtime panic (failed type assertion, negative slice index, integer division
by zero, nil dereference) is `.panic`.  Machine integers are `Int` with
64-bit wrap-around applied exactly where Go's `int64` arithmetic wraps.

Parts of the repository that exist (their declarations, opcodes and tests are
in the sources) but whose defining file is not available — the compiler
`compiler/compiler.go` and the frame-based VM `Run` loop — are modelled from
the specification; each such definition carries a doc comment starting with
`Modelled from the spec:`.
-/

namespace Monkey

/-! ### Instruction set (`code/code.go`) -/

/-- Opcodes, in `iota` order of the `const` block of `code/code.go`. -/
def opConstant : Nat := 0
def opAdd : Nat := 1
def opSub : Nat := 2
def opMul : Nat := 3
def opDiv : Nat := 4
def opPop : Nat := 5
def opTrue : Nat := 6
def opFalse : Nat := 7
def opEqual : Nat := 8
def opNotEqual : Nat := 9
def opGreaterThan : Nat := 10
def opMinus : Nat := 11
def opBang : Nat := 12
def opJumpNotTruthy : Nat := 13
def opJump : Nat := 14
def opNull : Nat := 15
def opGetGlobal : Nat := 16
def opSetGlobal : Nat := 17
def opGetLocal : Nat := 18
def opSetLocal : Nat := 19
def opArray : Nat := 20
def opHash : Nat := 21
def opIndex : Nat := 22
def opCall : Nat := 23
def opReturnValue : Nat := 24
def opReturn : Nat := 25

/-- `code.Definition`: an opcode name and its operand widths. -/
structure Definition where
  name : String
  operandWidth : List Nat
  deriving DecidableEq, Repr

/-- The `definitions` map of `code/code.go`, as an association list keyed by
opcode byte. -/
def definitions : List (Nat × Definition) :=
  [ (opConstant, ⟨"OpConstant", [2]⟩)
  , (opAdd, ⟨"OpAdd", []⟩)
  , (opSub, ⟨"OpSub", []⟩)
  , (opMul, ⟨"OpMul", []⟩)
  , (opDiv, ⟨"OpDiv", []⟩)
  , (opPop, ⟨"OpPop", []⟩)
  , (opTrue, ⟨"OpTrue", []⟩)
  , (opFalse, ⟨"OpFalse", []⟩)
  , (opEqual, ⟨"OpEqual", []⟩)
  , (opNotEqual, ⟨"OpNotEqual", []⟩)
  , (opGreaterThan, ⟨"OpGreaterThan", []⟩)
  , (opMinus, ⟨"OpMinus", []⟩)
  , (opBang, ⟨"OpBang", []⟩)
  , (opJumpNotTruthy, ⟨"OpJumpNotTruthy", [2]⟩)
  , (opJump, ⟨"OpJump", [2]⟩)
  , (opNull, ⟨"OpNull", []⟩)
  , (opGetGlobal, ⟨"OpGetGlobal", [2]⟩)
  , (opSetGlobal, ⟨"OpSetGlobal", [2]⟩)
  , (opGetLocal, ⟨"OpGetLocal", [1]⟩)
  , (opSetLocal, ⟨"OpSetLocal", [1]⟩)
  , (opArray, ⟨"OpArray", [2]⟩)
  , (opHash, ⟨"OpHash", [2]⟩)
  , (opIndex, ⟨"OpIndex", []⟩)
  , (opCall, ⟨"OpCall", [1]⟩)
  , (opReturnValue, ⟨"OpReturnValue", []⟩)
  , (opReturn, ⟨"OpReturn", []⟩) ]

/-- `code.Lookup`: find the definition of an opcode byte. -/
def lookupDef (op : Nat) : Option Definition :=
  (definitions.find? (fun p => p.1 = op)).map Prod.snd

/-- Big-endian 16-bit encoding of `binary.BigEndian.PutUint16` (the Go
conversion `uint16(o)` truncates the operand first). -/
def putUint16 (o : Nat) : List Nat :=
  [(o % 65536) / 256, o % 256]

/-- `code.Make`: one opcode byte followed by the operands encoded at their
declared widths (`byte(o)` and `uint16(o)` truncate). -/
def make (op : Nat) (operands : List Nat) : List Nat :=
  match lookupDef op with
  | none => []
  | some def_ =>
    op % 256 :: (List.zip operands def_.operandWidth).flatMap fun (o, width) =>
      if width = 1 then [o % 256]
      else if width = 2 then putUint16 o
      else []

/-- Total operand width of a definition, the `offset` that
`code.ReadOperands` returns. -/
def operandBytes (def_ : Definition) : Nat :=
  def_.operandWidth.sum

/-- The byte offsets at which instructions start, following the walk of
`Instructions.String` in `code/code.go` (`i += 1 + read`).  Fuel-driven; an
undefined opcode stops the walk. -/
def instructionOffsets : Nat → List Nat → Nat → List Nat
  | 0, _, _ => []
  | fuel + 1, ins, i =>
    if i < ins.length then
      match lookupDef (ins.getD i 0) with
      | none => []
      | some def_ => i :: instructionOffsets fuel ins (i + 1 + operandBytes def_)
    else []

/-! ### The conditional-compilation test of `compiler/compiler_test.go`

`compiler/compiler.go` itself is not among the sources; the repository's
`TestConditionals` pins the byte code the compiler must produce.  The two
lists below are the test's `expectedInstructions` for its two cases,
transcribed `code.Make` call by call. -/

/-- Expected instructions of `TestConditionals`, case `if(true) { 10; } 3333;`
(no `else` branch). -/
def testConditionalsNoElse : List Nat :=
  make opTrue [] ++ make opJumpNotTruthy [7] ++ make opConstant [0] ++
  make opPop [] ++ make opConstant [1] ++ make opPop []

/-- Expected instructions of `TestConditionals`, case
`if(true) { 10; } else { 20; } 3333;`. -/
def testConditionalsWithElse : List Nat :=
  make opTrue [] ++ make opJumpNotTruthy [10] ++ make opConstant [0] ++
  make opJump [13] ++ make opConstant [1] ++ make opPop [] ++
  make opConstant [2] ++ make opPop []

/-- The instruction sequence the claim (following the spec's disassembly
scenario) says `if (true) { 10 }; 3333;` compiles to: `OpTrue,
OpJumpNotTruthy 10, OpConstant 0, OpJump 11, OpNull, OpPop, OpConstant 1,
OpPop`. -/
def claimedConditionalNoElse : List Nat :=
  make opTrue [] ++ make opJumpNotTruthy [10] ++ make opConstant [0] ++
  make opJump [11] ++ make opNull [] ++ make opPop [] ++
  make opConstant [1] ++ make opPop []

/-! ### Object model (`object/object.go`) -/

/-- `object.CompiledFunction`: the instructions of a compiled function body
together with its local and parameter counts. -/
structure CompiledFunction where
  instructions : List Nat
  numLocals : Nat
  numParameters : Nat
  deriving DecidableEq, Repr

/-- The closed set of runtime values of `object/object.go` that the claims
touch.  `closure` carries the fields of `object.Closure` (`Fn`, `Free`). -/
inductive Obj where
  | integer (value : Int)
  | boolean (value : Bool)
  | null
  | str (value : String)
  | error (message : String)
  | compiledFunction (fn : CompiledFunction)
  | closure (fn : CompiledFunction) (free : List Obj)

/-- A Go `object.Object` interface value: `none` is the Go `nil` interface. -/
abbrev GoObj : Type := Option Obj

/-- `Object.Type()` tags, from the `const` block of `object/object.go`. -/
def Obj.typeTag : Obj → String
  | .integer _ => "INTEGER"
  | .boolean _ => "BOOLEAN"
  | .null => "NULL"
  | .str _ => "STRING"
  | .error _ => "ERROR"
  | .compiledFunction _ => "COMPILED_FUNCTION_OBJECT"
  | .closure _ _ => "CLOSURE"

/-- The Go pointer type name of a value, as it appears in the message of a
failed interface type assertion. -/
def Obj.ptrTypeName : Obj → String
  | .integer _ => "*object.Integer"
  | .boolean _ => "*object.Boolean"
  | .null => "*object.Null"
  | .str _ => "*object.String"
  | .error _ => "*object.Error"
  | .compiledFunction _ => "*object.CompiledFunction"
  | .closure _ _ => "*object.Closure"

/-- Outcome of running a piece of Go code: a normal result, an `error`
return, a runtime panic, or exhaustion of the explicit fuel that drives the
embedded loops. -/
inductive Res (α : Type) where
  | ok (value : α)
  | err (msg : String)
  | panicked (msg : String)
  | fuelOut

/-- Sequencing that propagates errors, panics and fuel exhaustion. -/
def Res.bind : Res α → (α → Res β) → Res β
  | .ok a, f => f a
  | .err m, _ => .err m
  | .panicked m, _ => .panicked m
  | .fuelOut, _ => .fuelOut

/-- 64-bit two's-complement wrap-around, the behaviour of Go's `int64`
arithmetic. -/
def wrap64 (x : Int) : Int := (x + 2 ^ 63) % 2 ^ 64 - 2 ^ 63

/-- Go division of `int64` values: truncated (toward zero) quotient, with a
run-time panic when the divisor is zero (`leftValue / rightValue` in
`executeBinaryIntegerOperation` and `evalIntegerInfixExpression` has no
guard). -/
def goDiv (a b : Int) : Res Int :=
  if b = 0 then .panicked "runtime error: integer divide by zero"
  else .ok (wrap64 (Int.tdiv a b))

/-- Calling `.Type()` on a possibly-nil `object.Object`: a nil interface
panics. -/
def goType : GoObj → Res String
  | none => .panicked "runtime error: invalid memory address or nil pointer dereference"
  | some o => .ok o.typeTag

/-- The Go type assertion `o.(*object.Integer)`: panics unless the dynamic
type is `*object.Integer`. -/
def typeAssertInteger : GoObj → Res Int
  | some (.integer v) => .ok v
  | some o => .panicked ("interface conversion: object.Object is " ++
      o.ptrTypeName ++ ", not *object.Integer")
  | none => .panicked "interface conversion: interface is nil, not *object.Integer"

/-! ### The virtual machine (`vm/vm.go`) -/

def StackSize : Nat := 2048
def GlobalsSize : Nat := 65536

/-- The VM of `vm/vm.go`.  The Go fixed-size slices `stack` (2048 slots) and
`globals` (65536 slots) are total maps from indices to possibly-nil objects;
the capacity bound of `stack` is enforced where the source enforces it, in
`push`.  `sp` always points to the next free slot. -/
structure VMState where
  constants : List GoObj
  instructions : List Nat
  stack : Nat → GoObj
  sp : Nat
  globals : Nat → GoObj

/-- `vm.New` composed with a `compiler.Bytecode`: every slot of the fresh
stack and globals store holds the nil interface. -/
def newVM (constants : List GoObj) (instructions : List Nat) : VMState :=
  { constants := constants, instructions := instructions,
    stack := fun _ => none, sp := 0, globals := fun _ => none }

/-- `vm.LastPoppedStackElem`: reads `stack[sp]`, the slot just above the live
stack. -/
def lastPoppedStackElem (vm : VMState) : GoObj := vm.stack vm.sp

/-- Pointwise update of a slot map. -/
def writeSlot (f : Nat → GoObj) (i : Nat) (o : GoObj) : Nat → GoObj :=
  fun j => if j = i then o else f j

/-- `vm.push`: fails with `stack overflow` at capacity, otherwise writes
`stack[sp]` and increments `sp`. -/
def push (vm : VMState) (o : GoObj) : Res VMState :=
  if StackSize ≤ vm.sp then .err "stack overflow"
  else .ok { vm with stack := writeSlot vm.stack vm.sp o, sp := vm.sp + 1 }

/-- `vm.pop`: reads `stack[sp-1]` and decrements `sp`, leaving the slot
contents in place.  With `sp = 0` the Go index expression `vm.stack[vm.sp-1]`
is `vm.stack[-1]`, a runtime panic — there is no underflow check. -/
def pop (vm : VMState) : Res (GoObj × VMState) :=
  if vm.sp = 0 then .panicked "runtime error: index out of range [-1]"
  else .ok (vm.stack (vm.sp - 1), { vm with sp := vm.sp - 1 })

/-- The `switch op` of `vm.executeBinaryIntegerOperation`: the Go `int64`
result of `+`, `-`, `*`, `/`, or the `unknown operator` error. -/
def goIntBinary (op : Nat) (leftValue rightValue : Int) : Res Int :=
  if op = opAdd then .ok (wrap64 (leftValue + rightValue))
  else if op = opSub then .ok (wrap64 (leftValue - rightValue))
  else if op = opMul then .ok (wrap64 (leftValue * rightValue))
  else if op = opDiv then goDiv leftValue rightValue
  else .err ("unknown operator: " ++ toString op)

/-- `vm.executeBinaryIntegerOperation`: type-asserts both operands, computes
the Go `int64` result (`+`, `-`, `*`, `/`), pushes it. -/
def executeBinaryIntegerOperation (vm : VMState) (op : Nat) (left right : GoObj) :
    Res VMState :=
  (typeAssertInteger left).bind fun leftValue =>
  (typeAssertInteger right).bind fun rightValue =>
  (goIntBinary op leftValue rightValue).bind fun result =>
  push vm (some (.integer result))

/-- `vm.executeBinaryOperation`: pops right then left, requires both Integer,
otherwise fails with `unsupported types for binary operation`. -/
def executeBinaryOperation (vm : VMState) (op : Nat) : Res VMState :=
  (pop vm).bind fun (right, vm1) =>
  (pop vm1).bind fun (left, vm2) =>
  (goType left).bind fun leftType =>
  (goType right).bind fun rightType =>
  if leftType = "INTEGER" ∧ rightType = "INTEGER" then
    executeBinaryIntegerOperation vm2 op left right
  else
    .err ("unsupported types for binary operation: " ++ leftType ++ " " ++ rightType)

/-- `vm.nativeBoolToBooleanObject`: the canonical Boolean singletons. -/
def nativeBoolToBooleanObject (input : Bool) : GoObj := some (.boolean input)

/-- `vm.executeIntegerComparison`: type-asserts both operands (a runtime
panic when one of them is not an Integer) and pushes the Boolean result. -/
def executeIntegerComparison (vm : VMState) (op : Nat) (left right : GoObj) :
    Res VMState :=
  (typeAssertInteger left).bind fun leftValue =>
  (typeAssertInteger right).bind fun rightValue =>
  if op = opEqual then push vm (nativeBoolToBooleanObject (leftValue = rightValue))
  else if op = opNotEqual then push vm (nativeBoolToBooleanObject (leftValue ≠ rightValue))
  else if op = opGreaterThan then push vm (nativeBoolToBooleanObject (rightValue < leftValue))
  else .err ("unknown operator: " ++ toString op)

/-- Go pointer equality `right == left` of interface values, in the branch of
`executeComparison` reached only by non-Integer operands.  The VM's Boolean
and Null values are the canonical singletons `True`, `False`, `Null` of
`vm/vm.go`, so identity coincides with the comparison below on them; for
other object kinds distinct allocations are never identical, and this model
conservatively returns `false` (no claim exercises those cases). -/
def goIdentityEq : GoObj → GoObj → Bool
  | none, none => true
  | some (.boolean x), some (.boolean y) => x = y
  | some .null, some .null => true
  | _, _ => false

/-- `vm.executeComparison`: routes to the integer comparison when either
side's type tag is INTEGER (Go's `||` evaluates `left.Type()` first),
otherwise compares by identity. -/
def executeComparison (vm : VMState) (op : Nat) : Res VMState :=
  (pop vm).bind fun (right, vm1) =>
  (pop vm1).bind fun (left, vm2) =>
  (goType left).bind fun leftType =>
  if leftType = "INTEGER" then executeIntegerComparison vm2 op left right
  else
    (goType right).bind fun rightType =>
    if rightType = "INTEGER" then executeIntegerComparison vm2 op left right
    else if op = opEqual then push vm2 (nativeBoolToBooleanObject (goIdentityEq right left))
    else if op = opNotEqual then push vm2 (nativeBoolToBooleanObject (!goIdentityEq right left))
    else .err ("unknown operator: " ++ toString op ++ " (" ++ leftType ++ " " ++ rightType ++ ")")

/-- `vm.executeBangOperator`: switch on identity with the singletons; the
default branch (everything except `False` and `Null`, including nil) pushes
`False`. -/
def executeBangOperator (vm : VMState) : Res VMState :=
  (pop vm).bind fun (operand, vm1) =>
  match operand with
  | some (.boolean true) => push vm1 (some (.boolean false))
  | some (.boolean false) => push vm1 (some (.boolean true))
  | some .null => push vm1 (some (.boolean true))
  | _ => push vm1 (some (.boolean false))

/-- `vm.executeMinusOperator`. -/
def executeMinusOperator (vm : VMState) : Res VMState :=
  (pop vm).bind fun (operand, vm1) =>
  (goType operand).bind fun t =>
  if t ≠ "INTEGER" then .err ("unsupported type for negation: " ++ t)
  else
    (typeAssertInteger operand).bind fun value =>
    push vm1 (some (.integer (wrap64 (-value))))

/-- `vm.isTruthy`: Booleans by value, Null false, everything else (including
a nil interface, which Go's type switch sends to `default`) truthy. -/
def isTruthy : GoObj → Bool
  | some (.boolean b) => b
  | some .null => false
  | _ => true

/-- `code.ReadUint16` applied at `instructions[i:]`: big-endian, panicking
when fewer than two bytes remain. -/
def readUint16 (ins : List Nat) (i : Nat) : Res Nat :=
  if i + 1 < ins.length then .ok (ins.getD i 0 * 256 + ins.getD (i + 1) 0)
  else .panicked "runtime error: index out of range"

/-- Indexing `vm.constants[constIndex]`. -/
def constantAt (vm : VMState) (i : Nat) : Res GoObj :=
  if i < vm.constants.length then .ok (vm.constants.getD i none)
  else .panicked "runtime error: index out of range"

/-- `vm.Run`, the fetch-decode-execute loop of `vm/vm.go`, with explicit
fuel (one unit per executed instruction).  An opcode with no `case` in the
source's `switch` — everything from `OpGetLocal` up, including `OpCall` —
falls through with no effect and execution continues at the next byte. -/
def run : Nat → VMState → Nat → Res VMState
  | 0, _, _ => .fuelOut
  | fuel + 1, vm, ip =>
    if ip < vm.instructions.length then
      let op := vm.instructions.getD ip 0
      if op = opConstant then
        (readUint16 vm.instructions (ip + 1)).bind fun constIndex =>
        (constantAt vm constIndex).bind fun c =>
        (push vm c).bind fun vm2 => run fuel vm2 (ip + 3)
      else if op = opAdd ∨ op = opSub ∨ op = opMul ∨ op = opDiv then
        (executeBinaryOperation vm op).bind fun vm2 => run fuel vm2 (ip + 1)
      else if op = opPop then
        (pop vm).bind fun (_, vm2) => run fuel vm2 (ip + 1)
      else if op = opTrue then
        (push vm (some (.boolean true))).bind fun vm2 => run fuel vm2 (ip + 1)
      else if op = opFalse then
        (push vm (some (.boolean false))).bind fun vm2 => run fuel vm2 (ip + 1)
      else if op = opEqual ∨ op = opNotEqual ∨ op = opGreaterThan then
        (executeComparison vm op).bind fun vm2 => run fuel vm2 (ip + 1)
      else if op = opBang then
        (executeBangOperator vm).bind fun vm2 => run fuel vm2 (ip + 1)
      else if op = opMinus then
        (executeMinusOperator vm).bind fun vm2 => run fuel vm2 (ip + 1)
      else if op = opJump then
        (readUint16 vm.instructions (ip + 1)).bind fun pos => run fuel vm pos
      else if op = opJumpNotTruthy then
        (readUint16 vm.instructions (ip + 1)).bind fun pos =>
        (pop vm).bind fun (condition, vm2) =>
        if isTruthy condition then run fuel vm2 (ip + 3) else run fuel vm2 pos
      else if op = opNull then
        (push vm (some .null)).bind fun vm2 => run fuel vm2 (ip + 1)
      else if op = opSetGlobal then
        (readUint16 vm.instructions (ip + 1)).bind fun globalIndex =>
        (pop vm).bind fun (v, vm2) =>
        run fuel { vm2 with globals := writeSlot vm2.globals globalIndex v } (ip + 3)
      else if op = opGetGlobal then
        (readUint16 vm.instructions (ip + 1)).bind fun globalIndex =>
        (push vm (vm.globals globalIndex)).bind fun vm2 => run fuel vm2 (ip + 3)
      else
        run fuel vm (ip + 1)
    else .ok vm

/-- Projection for stating what a completed run left in `stack[sp]`. -/
def runLastPopped (r : Res VMState) : Option GoObj :=
  match r with
  | .ok vm => some (lastPoppedStackElem vm)
  | _ => none

/-! ### The tree-walking evaluator (`evaluator/evaluator.go`) -/

/-- `evaluator.newError`. -/
def newError (msg : String) : Obj := .error msg

/-- The evaluator's `nativeBoolToBooleanObject` (its own `TRUE`/`FALSE`
singletons). -/
def evalNativeBool (b : Bool) : Obj := .boolean b

/-- `evaluator.evalIntegerInfixExpression`: type-asserts both operands and
applies the Go operator; `/` is the unguarded `leftVal / rightVal`. -/
def evalIntegerInfixExpression (operator : String) (left right : GoObj) : Res Obj :=
  (typeAssertInteger left).bind fun leftVal =>
  (typeAssertInteger right).bind fun rightVal =>
  if operator = "+" then .ok (.integer (wrap64 (leftVal + rightVal)))
  else if operator = "-" then .ok (.integer (wrap64 (leftVal - rightVal)))
  else if operator = "*" then .ok (.integer (wrap64 (leftVal * rightVal)))
  else if operator = "/" then (goDiv leftVal rightVal).bind fun q => .ok (.integer q)
  else if operator = "<" then .ok (evalNativeBool (leftVal < rightVal))
  else if operator = ">" then .ok (evalNativeBool (rightVal < leftVal))
  else if operator = "==" then .ok (evalNativeBool (leftVal = rightVal))
  else if operator = "!=" then .ok (evalNativeBool (leftVal ≠ rightVal))
  else .ok (newError ("unknown operator: INTEGER " ++ operator ++ " INTEGER"))

/-! ### The frame-based virtual machine (call frames)

The later, frame-based `Run` loop of the VM is not among the sources: only
its declarations are — the `Frame` type (with a closure field), the
`Closure` and `CompiledFunction` objects of `object/object.go`, and the
`OpCall` opcode of `code/code.go`.  The `OpCall` dispatch below is modelled
from the specification's §4.5. -/

/-- `vm.Frame` (from the `Frame` source file): a closure reference (its
`Fn`/`Free` fields), an instruction pointer and a base pointer. -/
structure Frame where
  clFn : CompiledFunction
  clFree : List Obj
  ip : Int
  basePointer : Nat

/-- `vm.NewFrame`: the instruction pointer starts at `-1`. -/
def NewFrame (fn : CompiledFunction) (free : List Obj) (basePointer : Nat) : Frame :=
  { clFn := fn, clFree := free, ip := -1, basePointer := basePointer }

/-- State of the frame-based VM, restricted to the parts `OpCall` touches. -/
structure FrameVMState where
  stack : Nat → GoObj
  sp : Nat
  frames : List Frame

/-- Modelled from the spec: the `OpCall` dispatch of the frame-based VM
(`vm.Run`'s `OpCall` case and `callFunction`), which is missing from the
sources.  The callee sits at `stack[sp - argc - 1]`.  A Closure callee
requires `argc == fn.NumParameters` (else
`wrong number of arguments: want=P, got=A`), then pushes a frame with
`base_pointer = sp - argc` and `ip = -1` and sets
`sp = base_pointer + fn.NumLocals`.  The Builtin branch is not modelled (no
Builtin values exist in this embedding); any non-Closure callee fails with
`calling non-function`. -/
def executeOpCall (vm : FrameVMState) (argc : Nat) : Res FrameVMState :=
  match vm.stack (vm.sp - 1 - argc) with
  | some (.closure fn free) =>
    if argc ≠ fn.numParameters then
      .err ("wrong number of arguments: want=" ++ toString fn.numParameters ++
            ", got=" ++ toString argc)
    else
      .ok { vm with frames := NewFrame fn free (vm.sp - argc) :: vm.frames,
                    sp := vm.sp - argc + fn.numLocals }
  | _ => .err "calling non-function"

/-! ### The lexer (`lexer/lexer.go`) -/

/-- The NUL byte the lexer uses as its end-of-input sentinel. -/
def nul : Char := '\x00'

/-- `lexer.Lexer`: the Go string is a list of (ASCII) characters. -/
structure Lexer where
  input : List Char
  position : Nat
  readPosition : Nat
  ch : Char

/-- `Lexer.readChar`. -/
def readChar (l : Lexer) : Lexer :=
  { l with
    ch := if l.readPosition < l.input.length then l.input.getD l.readPosition nul else nul,
    position := l.readPosition,
    readPosition := l.readPosition + 1 }

/-- `lexer.New`. -/
def lexerNew (input : List Char) : Lexer :=
  readChar { input := input, position := 0, readPosition := 0, ch := nul }

/-- `token.Token`; `TokenType` is a Go string. -/
structure Token where
  type : String
  literal : String

/-- `token.LookupIdent` over the `keywords` map. -/
def lookupIdent (ident : String) : String :=
  if ident = "fn" then "FUNCTION"
  else if ident = "let" then "LET"
  else if ident = "true" then "TRUE"
  else if ident = "false" then "FALSE"
  else if ident = "if" then "IF"
  else if ident = "else" then "ELSE"
  else if ident = "return" then "RETURN"
  else "IDENT"

/-- `lexer.isLetter`. -/
def isLetter (ch : Char) : Bool :=
  ('a' ≤ ch ∧ ch ≤ 'z') ∨ ('A' ≤ ch ∧ ch ≤ 'Z') ∨ ch = '_'

/-- `lexer.isDigit`. -/
def isDigit (ch : Char) : Bool := '0' ≤ ch ∧ ch ≤ '9'

/-- `Lexer.skipWhiteSpace`; each `readChar` moves `readPosition` forward and
the loop stops at the NUL sentinel, so `input.length + 2` units of fuel
always suffice (the fuel-out branch is unreachable at the call site). -/
def skipWhiteSpace : Nat → Lexer → Lexer
  | 0, l => l
  | fuel + 1, l =>
    if l.ch = ' ' ∨ l.ch = '\t' ∨ l.ch = '\n' ∨ l.ch = '\r' then
      skipWhiteSpace fuel (readChar l)
    else l

/-- The Go slice `l.input[a:b]` as a string. -/
def sliceStr (input : List Char) (a b : Nat) : String :=
  String.mk ((input.drop a).take (b - a))

/-- The scanning loop of `Lexer.readIdentifier` (fuelled like
`skipWhiteSpace`). -/
def readIdentifierLoop : Nat → Lexer → Lexer
  | 0, l => l
  | fuel + 1, l => if isLetter l.ch then readIdentifierLoop fuel (readChar l) else l

/-- `Lexer.readIdentifier`. -/
def readIdentifier (l : Lexer) : String × Lexer :=
  let l2 := readIdentifierLoop (l.input.length + 2) l
  (sliceStr l.input l.position l2.position, l2)

/-- The scanning loop of `Lexer.readNumber`. -/
def readNumberLoop : Nat → Lexer → Lexer
  | 0, l => l
  | fuel + 1, l => if isDigit l.ch then readNumberLoop fuel (readChar l) else l

/-- `Lexer.readNumber`. -/
def readNumber (l : Lexer) : String × Lexer :=
  let l2 := readNumberLoop (l.input.length + 2) l
  (sliceStr l.input l.position l2.position, l2)

/-- The scanning loop of `Lexer.readString` (stops after `"` or NUL). -/
def readStringLoop : Nat → Lexer → Lexer
  | 0, l => l
  | fuel + 1, l =>
    let l2 := readChar l
    if l2.ch = '"' ∨ l2.ch = nul then l2 else readStringLoop fuel l2

/-- `Lexer.readString`. -/
def readString (l : Lexer) : String × Lexer :=
  let l2 := readStringLoop (l.input.length + 2) l
  (sliceStr l.input (l.position + 1) l2.position, l2)

/-- `Lexer.peekChar`. -/
def peekChar (l : Lexer) : Char :=
  if l.readPosition < l.input.length then l.input.getD l.readPosition nul else nul

/-- `lexer.newToken`. -/
def mkTok (t : String) (ch : Char) : Token := { type := t, literal := String.mk [ch] }

/-- `Lexer.NextToken`: the big `switch` of `lexer/lexer.go`.  The identifier
and number branches return without the trailing `readChar`, exactly as the
source does. -/
def nextToken (l0 : Lexer) : Token × Lexer :=
  let l := skipWhiteSpace (l0.input.length + 2) l0
  if l.ch = '!' then
    if peekChar l = '=' then
      let l2 := readChar l
      ({ type := "!=", literal := String.mk ['!', l2.ch] }, readChar l2)
    else (mkTok "!" l.ch, readChar l)
  else if l.ch = '=' then
    if peekChar l = '=' then
      let l2 := readChar l
      ({ type := "==", literal := String.mk ['=', l2.ch] }, readChar l2)
    else (mkTok "=" l.ch, readChar l)
  else if l.ch = '+' then (mkTok "+" l.ch, readChar l)
  else if l.ch = '-' then (mkTok "-" l.ch, readChar l)
  else if l.ch = '/' then (mkTok "/" l.ch, readChar l)
  else if l.ch = '*' then (mkTok "*" l.ch, readChar l)
  else if l.ch = '<' then (mkTok "<" l.ch, readChar l)
  else if l.ch = '>' then (mkTok ">" l.ch, readChar l)
  else if l.ch = ';' then (mkTok ";" l.ch, readChar l)
  else if l.ch = '(' then (mkTok "(" l.ch, readChar l)
  else if l.ch = ')' then (mkTok ")" l.ch, readChar l)
  else if l.ch = ',' then (mkTok "," l.ch, readChar l)
  else if l.ch = '{' then (mkTok "\x7b" l.ch, readChar l)
  else if l.ch = '}' then (mkTok "\x7d" l.ch, readChar l)
  else if l.ch = '"' then
    let (s, l2) := readString l
    ({ type := "STRING", literal := s }, readChar l2)
  else if l.ch = nul then ({ type := "EOF", literal := "" }, readChar l)
  else if isLetter l.ch then
    let (lit, l2) := readIdentifier l
    ({ type := lookupIdent lit, literal := lit }, l2)
  else if isDigit l.ch then
    let (lit, l2) := readNumber l
    ({ type := "INT", literal := lit }, l2)
  else (mkTok "ILLEGAL" l.ch, readChar l)

/-! ### The AST (`ast/ast.go`)

Expression and statement pointers in the Go AST are nilable; children are
therefore `Option Expr`.  The constructors keep the token literals the
`String()` printers read back. -/

mutual
inductive Expr where
  | identE (value : String)
  | intLit (tokenLiteral : String) (value : Int)
  | boolLit (tokenLiteral : String) (value : Bool)
  | prefixE (operator : String) (right : Option Expr)
  | infixE (operator : String) (left : Option Expr) (right : Option Expr)
  | ifE (condition : Option Expr) (consequence : List Stmt)
        (alternative : Option (List Stmt))
  | funcLit (parameters : List String) (body : List Stmt)
  | callE (function : Option Expr) (arguments : List (Option Expr))

inductive Stmt where
  | letStmt (name : String) (value : Option Expr)
  | returnStmt (value : Option Expr)
  | exprStmt (expr : Option Expr)
  | nilStmt
end

/-! The `String()` printers of `ast/ast.go`.  Calling `String()` through a
nil pointer is a Go runtime panic, rendered here as `none`.  Note
`InfixExpression.String` in the source has its two `WriteString("(")` /
`WriteString(")")` lines commented out: the infix case below emits no
parentheses, exactly as the source does. -/

mutual
def exprStr : Expr → Option String
  | .identE v => some v
  | .intLit tokLit _ => some tokLit
  | .boolLit tokLit _ => some tokLit
  | .prefixE op r => (oExprStr r).map fun rs => "(" ++ op ++ rs ++ ")"
  | .infixE op l r =>
      (oExprStr l).bind fun ls =>
      (oExprStr r).map fun rs => ls ++ " " ++ op ++ " " ++ rs
  | .ifE c cons alt =>
      (oExprStr c).bind fun cs =>
      (blockStr cons).bind fun bs =>
      match alt with
      | none => some ("if" ++ cs ++ " " ++ bs)
      | some ab => (blockStr ab).map fun abs2 => "if" ++ cs ++ " " ++ bs ++ "else " ++ abs2
  | .funcLit params body =>
      (blockStr body).map fun bs =>
        "fn" ++ "(" ++ String.intercalate ", " params ++ ") " ++ bs
  | .callE fn args =>
      (oExprStr fn).bind fun fs =>
      (argsStr args).map fun argStrings =>
        fs ++ "(" ++ String.intercalate ", " argStrings ++ ")"

def oExprStr : Option Expr → Option String
  | none => none
  | some e => exprStr e

def argsStr : List (Option Expr) → Option (List String)
  | [] => some []
  | a :: rest => (oExprStr a).bind fun s => (argsStr rest).map fun rs => s :: rs

def blockStr : List Stmt → Option String
  | [] => some ""
  | s :: rest =>
      (stmtStr s).bind fun ss =>
      (blockStr rest).map fun rs => "\n" ++ "\t" ++ ss ++ "\n" ++ rs

def stmtStr : Stmt → Option String
  | .letStmt name value =>
      match value with
      | none => some ("let" ++ " " ++ name ++ " = " ++ ";")
      | some v => (exprStr v).map fun vs => "let" ++ " " ++ name ++ " = " ++ vs ++ ";"
  | .returnStmt value =>
      match value with
      | none => some ("return" ++ " " ++ ";")
      | some v => (exprStr v).map fun vs => "return" ++ " " ++ vs ++ ";"
  | .exprStmt e =>
      match e with
      | none => some ""
      | some v => exprStr v
  | .nilStmt => none
end

/-- `Program.String`: plain concatenation of the statement strings. -/
def programString : List Stmt → Option String
  | [] => some ""
  | s :: rest =>
      (stmtStr s).bind fun ss => (programString rest).map fun rs => ss ++ rs

/-! ### The Pratt parser (`parser/parser.go`)

The recursion of the mutually recursive parse functions is driven by one
explicit fuel parameter; every mutual call decreases it by one, and loop
bodies spend one unit per iteration.  `none` means the fuel ran out — for
every terminating parse a sufficiently large fuel returns `some`, and an
input on which the result is `none` for *every* fuel is one on which the Go
parser does not terminate. -/

/-- Precedence levels, in `iota` order (`LOWEST = 1`). -/
def LOWEST : Nat := 1
def EQUALS : Nat := 2
def LESSGRATER : Nat := 3
def SUM : Nat := 4
def PRODUCT : Nat := 5
def PREFIXPREC : Nat := 6
def CALL : Nat := 7

/-- The `precedences` table. -/
def precedenceOf (t : String) : Option Nat :=
  if t = "==" then some EQUALS
  else if t = "!=" then some EQUALS
  else if t = "<" then some LESSGRATER
  else if t = ">" then some LESSGRATER
  else if t = "+" then some SUM
  else if t = "-" then some SUM
  else if t = "/" then some PRODUCT
  else if t = "*" then some PRODUCT
  else if t = "(" then some CALL
  else none

/-- `parser.Parser`: lexer, error list and the two-token window. -/
structure Parser where
  l : Lexer
  errors : List String
  curToken : Token
  peekToken : Token

/-- `Parser.nextToken`. -/
def nextTokenP (p : Parser) : Parser :=
  let (t, l2) := nextToken p.l
  { p with l := l2, curToken := p.peekToken, peekToken := t }

/-- `parser.New`: a zero-valued token window advanced twice. -/
def parserNew (l : Lexer) : Parser :=
  nextTokenP (nextTokenP
    { l := l, errors := [], curToken := ⟨"", ""⟩, peekToken := ⟨"", ""⟩ })

/-- `Parser.peekPrecedence`. -/
def peekPrecedence (p : Parser) : Nat := (precedenceOf p.peekToken.type).getD LOWEST

/-- `Parser.currPrecedence`. -/
def currPrecedence (p : Parser) : Nat := (precedenceOf p.curToken.type).getD LOWEST

/-- `Parser.peekError`. -/
def peekError (p : Parser) (t : String) : Parser :=
  { p with errors := p.errors ++
      ["expected next token to be " ++ t ++ ", got " ++ p.peekToken.type ++ " instead"] }

/-- `Parser.expectPeek`. -/
def expectPeek (p : Parser) (t : String) : Bool × Parser :=
  if p.peekToken.type = t then (true, nextTokenP p) else (false, peekError p t)

/-- `Parser.noPrefixParseFnError`. -/
def noPrefixParseFnError (p : Parser) (t : String) : Parser :=
  { p with errors := p.errors ++ ["no prefix parse function for " ++ t ++ " found"] }

/-- The token types registered in `prefixParseFns`. -/
def hasPrefixFn (t : String) : Bool :=
  t = "IDENT" ∨ t = "INT" ∨ t = "!" ∨ t = "-" ∨ t = "TRUE" ∨ t = "FALSE" ∨
  t = "(" ∨ t = "IF" ∨ t = "FUNCTION"

/-- The token types registered in `infixParseFns`. -/
def hasInfixFn (t : String) : Bool :=
  t = "+" ∨ t = "-" ∨ t = "/" ∨ t = "*" ∨ t = "==" ∨ t = "!=" ∨ t = "<" ∨
  t = ">" ∨ t = "("

/-- Decimal or (leading-zero) octal reading of a digit run, as
`strconv.ParseInt(s, 0, 64)` behaves on the strings `Lexer.readNumber`
produces; `none` is a parse error. -/
def digitsToNat (base : Nat) : List Char → Option Nat → Option Nat
  | _, none => none
  | [], acc => acc
  | c :: rest, some acc =>
      let d := c.toNat - '0'.toNat
      if d < base then digitsToNat base rest (some (acc * base + d)) else none

/-- `strconv.ParseInt(s, 0, 64)` restricted to digit runs: base 10, or base
8 after a leading zero, with the `int64` range check. -/
def parseIntLitValue (s : String) : Option Int :=
  match s.data with
  | [] => none
  | ['0'] => some 0
  | '0' :: rest =>
      (digitsToNat 8 rest (some 0)).bind fun n =>
        if n ≤ 2 ^ 63 - 1 then some (n : Int) else none
  | ds =>
      (digitsToNat 10 ds (some 0)).bind fun n =>
        if n ≤ 2 ^ 63 - 1 then some (n : Int) else none

/-- `Parser.parseIdentifier` (no token advance). -/
def parseIdentifier (p : Parser) : Option Expr × Parser :=
  (some (.identE p.curToken.literal), p)

/-- `Parser.parseIntegerLiteral`: records
`could not parse "…" as integer` and yields a nil expression on failure. -/
def parseIntegerLiteral (p : Parser) : Option Expr × Parser :=
  match parseIntLitValue p.curToken.literal with
  | none =>
      (none, { p with errors := p.errors ++
        ["could not parse \"" ++ p.curToken.literal ++ "\" as integer"] })
  | some v => (some (.intLit p.curToken.literal v), p)

/-- `Parser.parseBoolean`. -/
def parseBoolean (p : Parser) : Option Expr × Parser :=
  (some (.boolLit p.curToken.literal (p.curToken.type = "TRUE")), p)

/-- The `for !p.curTokenIs(token.SEMICOLON)` loop at the end of
`Parser.parseReturnStatement`: advance until the current token is a
semicolon. -/
def skipToSemicolon : Nat → Parser → Option Parser
  | fuel, p =>
    if p.curToken.type = ";" then some p
    else
      match fuel with
      | 0 => none
      | f + 1 => skipToSemicolon f (nextTokenP p)

mutual

/-- `Parser.ParseProgram` / its statement loop.  The source appends
`parseStatement`'s result whenever the interface value is non-nil — and a
typed nil pointer boxed in an interface is non-nil, so every statement is
appended (failures appear as `Stmt.nilStmt`). -/
def parseProgram : Nat → Parser → Option (List Stmt × Parser)
  | fuel, p =>
    if p.curToken.type = "EOF" then some ([], p)
    else
      match fuel with
      | 0 => none
      | f + 1 =>
          (parseStatement f p).bind fun sp =>
          (parseProgram f (nextTokenP sp.2)).map fun rest => (sp.1 :: rest.1, rest.2)

/-- `Parser.parseStatement`. -/
def parseStatement : Nat → Parser → Option (Stmt × Parser)
  | 0, _ => none
  | f + 1, p =>
    if p.curToken.type = "LET" then parseLetStatement f p
    else if p.curToken.type = "RETURN" then parseReturnStatement f p
    else parseExpressionStatement f p

/-- `Parser.parseLetStatement`; a failed `expectPeek` returns Go's nil
statement pointer. -/
def parseLetStatement : Nat → Parser → Option (Stmt × Parser)
  | 0, _ => none
  | f + 1, p =>
    match expectPeek p "IDENT" with
    | (false, p2) => some (.nilStmt, p2)
    | (true, p2) =>
      let name := p2.curToken.literal
      match expectPeek p2 "=" with
      | (false, p3) => some (.nilStmt, p3)
      | (true, p3) =>
        let p4 := nextTokenP p3
        (parseExpression f LOWEST p4).bind fun vp =>
        let p6 := if vp.2.peekToken.type = ";" then nextTokenP vp.2 else vp.2
        some (.letStmt name vp.1, p6)

/-- `Parser.parseReturnStatement`: parse the returned expression, then spin
until the current token is a semicolon. -/
def parseReturnStatement : Nat → Parser → Option (Stmt × Parser)
  | 0, _ => none
  | f + 1, p =>
    let p2 := nextTokenP p
    (parseExpression f LOWEST p2).bind fun vp =>
    (skipToSemicolon f vp.2).map fun p4 => (.returnStmt vp.1, p4)

/-- `Parser.parseExpressionStatement`. -/
def parseExpressionStatement : Nat → Parser → Option (Stmt × Parser)
  | 0, _ => none
  | f + 1, p =>
    (parseExpression f LOWEST p).bind fun ep =>
    let p3 := if ep.2.peekToken.type = ";" then nextTokenP ep.2 else ep.2
    some (.exprStmt ep.1, p3)

/-- `Parser.parseExpression`: prefix dispatch, then the infix loop. -/
def parseExpression : Nat → Nat → Parser → Option (Option Expr × Parser)
  | 0, _, _ => none
  | f + 1, precedence, p =>
    if hasPrefixFn p.curToken.type then
      (callPrefixFn f p).bind fun lp =>
      infixLoop f precedence lp.1 lp.2
    else some (none, noPrefixParseFnError p p.curToken.type)

/-- Dispatch over `prefixParseFns`. -/
def callPrefixFn : Nat → Parser → Option (Option Expr × Parser)
  | 0, _ => none
  | f + 1, p =>
    if p.curToken.type = "IDENT" then some (parseIdentifier p)
    else if p.curToken.type = "INT" then some (parseIntegerLiteral p)
    else if p.curToken.type = "!" ∨ p.curToken.type = "-" then parsePrefixExpression f p
    else if p.curToken.type = "TRUE" ∨ p.curToken.type = "FALSE" then some (parseBoolean p)
    else if p.curToken.type = "(" then parseGroupedExpression f p
    else if p.curToken.type = "IF" then parseIfExpression f p
    else parseFunctionLiteral f p

/-- The `for !p.peekTokenIs(SEMICOLON) && precedence < p.peekPrecedence()`
loop of `parseExpression`. -/
def infixLoop : Nat → Nat → Option Expr → Parser → Option (Option Expr × Parser)
  | fuel, precedence, leftExp, p =>
    if p.peekToken.type ≠ ";" ∧ precedence < peekPrecedence p then
      if hasInfixFn p.peekToken.type then
        match fuel with
        | 0 => none
        | f + 1 =>
            (callInfixFn f (nextTokenP p) leftExp).bind fun lp =>
            infixLoop f precedence lp.1 lp.2
      else some (leftExp, p)
    else some (leftExp, p)

/-- Dispatch over `infixParseFns` (the call-expression parser is registered
on `(`). -/
def callInfixFn : Nat → Parser → Option Expr → Option (Option Expr × Parser)
  | 0, _, _ => none
  | f + 1, p, leftExp =>
    if p.curToken.type = "(" then parseCallExpression f p leftExp
    else parseInfixExpression f p leftExp

/-- `Parser.parsePrefixExpression`. -/
def parsePrefixExpression : Nat → Parser → Option (Option Expr × Parser)
  | 0, _ => none
  | f + 1, p =>
    let operator := p.curToken.literal
    let p2 := nextTokenP p
    (parseExpression f PREFIXPREC p2).map fun rp => (some (.prefixE operator rp.1), rp.2)

/-- `Parser.parseInfixExpression`. -/
def parseInfixExpression : Nat → Parser → Option Expr → Option (Option Expr × Parser)
  | 0, _, _ => none
  | f + 1, p, leftExp =>
    let operator := p.curToken.literal
    let precedence := currPrecedence p
    let p2 := nextTokenP p
    (parseExpression f precedence p2).map fun rp =>
      (some (.infixE operator leftExp rp.1), rp.2)

/-- `Parser.parseGroupedExpression`. -/
def parseGroupedExpression : Nat → Parser → Option (Option Expr × Parser)
  | 0, _ => none
  | f + 1, p =>
    let p2 := nextTokenP p
    (parseExpression f LOWEST p2).bind fun ep =>
    match expectPeek ep.2 ")" with
    | (false, p4) => some (none, p4)
    | (true, p4) => some (ep.1, p4)

/-- `Parser.parseIfExpression`. -/
def parseIfExpression : Nat → Parser → Option (Option Expr × Parser)
  | 0, _ => none
  | f + 1, p =>
    match expectPeek p "(" with
    | (false, p2) => some (none, p2)
    | (true, p2) =>
      let p3 := nextTokenP p2
      (parseExpression f LOWEST p3).bind fun cp =>
      match expectPeek cp.2 ")" with
      | (false, p5) => some (none, p5)
      | (true, p5) =>
        match expectPeek p5 "\x7b" with
        | (false, p6) => some (none, p6)
        | (true, p6) =>
          (parseBlockStatement f p6).bind fun bp =>
          if bp.2.peekToken.type = "ELSE" then
            let p8 := nextTokenP bp.2
            match expectPeek p8 "\x7b" with
            | (false, p9) => some (none, p9)
            | (true, p9) =>
              (parseBlockStatement f p9).map fun ap =>
                (some (.ifE cp.1 bp.1 (some ap.1)), ap.2)
          else some (some (.ifE cp.1 bp.1 none), bp.2)

/-- `Parser.parseBlockStatement`. -/
def parseBlockStatement : Nat → Parser → Option (List Stmt × Parser)
  | 0, _ => none
  | f + 1, p => blockLoop f (nextTokenP p)

/-- The statement loop of `parseBlockStatement` (stops at `}` or EOF). -/
def blockLoop : Nat → Parser → Option (List Stmt × Parser)
  | fuel, p =>
    if p.curToken.type ≠ "\x7d" ∧ p.curToken.type ≠ "EOF" then
      match fuel with
      | 0 => none
      | f + 1 =>
          (parseStatement f p).bind fun sp =>
          (blockLoop f (nextTokenP sp.2)).map fun rest => (sp.1 :: rest.1, rest.2)
    else some ([], p)

/-- `Parser.parseFunctionLiteral`. -/
def parseFunctionLiteral : Nat → Parser → Option (Option Expr × Parser)
  | 0, _ => none
  | f + 1, p =>
    match expectPeek p "(" with
    | (false, p2) => some (none, p2)
    | (true, p2) =>
      (parseFunctionParameters f p2).bind fun pp =>
      match expectPeek pp.2 "\x7b" with
      | (false, p4) => some (none, p4)
      | (true, p4) =>
        (parseBlockStatement f p4).map fun bp =>
          (some (.funcLit pp.1 bp.1), bp.2)

/-- `Parser.parseFunctionParameters`; a failed closing-paren check returns
Go's nil slice (here `[]`). -/
def parseFunctionParameters : Nat → Parser → Option (List String × Parser)
  | 0, _ => none
  | f + 1, p =>
    if p.peekToken.type = ")" then some ([], nextTokenP p)
    else
      let p2 := nextTokenP p
      (paramsLoop f p2).bind fun rp =>
      match expectPeek rp.2 ")" with
      | (false, p4) => some ([], p4)
      | (true, p4) => some (p2.curToken.literal :: rp.1, p4)

/-- The `for p.peekTokenIs(COMMA)` loop of `parseFunctionParameters`. -/
def paramsLoop : Nat → Parser → Option (List String × Parser)
  | fuel, p =>
    if p.peekToken.type = "," then
      match fuel with
      | 0 => none
      | f + 1 =>
          let p2 := nextTokenP (nextTokenP p)
          (paramsLoop f p2).map fun rest => (p2.curToken.literal :: rest.1, rest.2)
    else some ([], p)

/-- `Parser.parseCallExpression`. -/
def parseCallExpression : Nat → Parser → Option Expr → Option (Option Expr × Parser)
  | 0, _, _ => none
  | f + 1, p, function =>
    (parseCallArguments f p).map fun ap => (some (.callE function ap.1), ap.2)

/-- `Parser.parseCallArguments`; a failed closing-paren check returns Go's
nil slice. -/
def parseCallArguments : Nat → Parser → Option (List (Option Expr) × Parser)
  | 0, _ => none
  | f + 1, p =>
    if p.peekToken.type = ")" then some ([], nextTokenP p)
    else
      let p2 := nextTokenP p
      (parseExpression f LOWEST p2).bind fun ap =>
      (callArgsLoop f ap.2).bind fun rp =>
      match expectPeek rp.2 ")" with
      | (false, p5) => some ([], p5)
      | (true, p5) => some (ap.1 :: rp.1, p5)

/-- The `for p.peekTokenIs(COMMA)` loop of `parseCallArguments`. -/
def callArgsLoop : Nat → Parser → Option (List (Option Expr) × Parser)
  | fuel, p =>
    if p.peekToken.type = "," then
      match fuel with
      | 0 => none
      | f + 1 =>
          let p2 := nextTokenP (nextTokenP p)
          (parseExpression f LOWEST p2).bind fun ap =>
          (callArgsLoop f ap.2).map fun rest => (ap.1 :: rest.1, rest.2)
    else some ([], p)

end

/-- Parse a source text: `parser.New(lexer.New(input)).ParseProgram()`. -/
def parseSource (fuel : Nat) (input : List Char) : Option (List Stmt × Parser) :=
  parseProgram fuel (parserNew (lexerNew input))

/-- The statements of a parse, discarding the final parser state. -/
def parsedStmts (fuel : Nat) (input : List Char) : Option (List Stmt) :=
  (parseSource fuel input).map Prod.fst

/-- The accumulated parser errors of a parse. -/
def parsedErrors (fuel : Nat) (input : List Char) : Option (List String) :=
  (parseSource fuel input).map fun r => r.2.errors

/-! ### The compiler (expression subset)

`compiler/compiler.go` is not among the sources; only its test file is.  The
definitions below are modelled from the specification's §4.4 for the
expression constructs the claims exercise (integer and boolean literals,
prefix and infix expressions, expression statements); the remaining
constructs are out of the modelled subset and fail.  Constants are threaded
as the append-only pool the spec describes. -/

/-- The opcode the spec's §4.4 assigns to each infix operator other than
`<`. -/
def infixOpcode (op : String) : Option Nat :=
  if op = "+" then some opAdd
  else if op = "-" then some opSub
  else if op = "*" then some opMul
  else if op = "/" then some opDiv
  else if op = ">" then some opGreaterThan
  else if op = "==" then some opEqual
  else if op = "!=" then some opNotEqual
  else none

mutual

/-- Modelled from the spec: `Compiler.Compile` on expressions
(`compiler/compiler.go` is missing from the sources).  Integer literals are
appended to the constant pool and referenced by `OpConstant`; booleans emit
`OpTrue`/`OpFalse`; prefix expressions compile the operand then emit
`OpBang`/`OpMinus`; infix expressions compile left then right then the
operator's opcode — except `<`, which compiles the right operand first, then
the left, and emits `OpGreaterThan`. -/
def compileExpr : Expr → List GoObj → Except String (List Nat × List GoObj)
  | .intLit _ v, consts =>
      .ok (make opConstant [consts.length], consts ++ [some (.integer v)])
  | .boolLit _ b, consts =>
      .ok (make (if b then opTrue else opFalse) [], consts)
  | .prefixE op r, consts =>
      (compileOExpr r consts).bind fun rc =>
      if op = "!" then .ok (rc.1 ++ make opBang [], rc.2)
      else if op = "-" then .ok (rc.1 ++ make opMinus [], rc.2)
      else .error ("unknown operator " ++ op)
  | .infixE op l r, consts =>
      if op = "<" then
        (compileOExpr r consts).bind fun rc =>
        (compileOExpr l rc.2).bind fun lc =>
        .ok (rc.1 ++ lc.1 ++ make opGreaterThan [], lc.2)
      else
        match infixOpcode op with
        | none => .error ("unknown operator " ++ op)
        | some opc =>
          (compileOExpr l consts).bind fun lc =>
          (compileOExpr r lc.2).bind fun rc =>
          .ok (lc.1 ++ rc.1 ++ make opc [], rc.2)
  | _, _ => .error "expression form outside the modelled subset"

/-- Modelled from the spec: compiling through a nilable expression pointer
(a nil child is a compile-time failure). -/
def compileOExpr : Option Expr → List GoObj → Except String (List Nat × List GoObj)
  | none, _ => .error "nil expression"
  | some e, consts => compileExpr e consts

end

/-- Modelled from the spec: statement compilation — an expression statement
compiles its expression and emits `OpPop`. -/
def compileStmt : Stmt → List GoObj → Except String (List Nat × List GoObj)
  | .exprStmt e, consts =>
      (compileOExpr e consts).bind fun ec => .ok (ec.1 ++ make opPop [], ec.2)
  | _, _ => .error "statement form outside the modelled subset"

/-- Modelled from the spec: `Compiler.Compile` over a program's statements,
concatenating emitted instructions and threading the constant pool. -/
def compileProgram : List Stmt → List GoObj → Except String (List Nat × List GoObj)
  | [], consts => .ok ([], consts)
  | s :: rest, consts =>
      (compileStmt s consts).bind fun sc =>
      (compileProgram rest sc.2).map fun rc => (sc.1 ++ rc.1, rc.2)

/-- The `expectedInstructions` of `TestBooleanExpressions` for `1 < 2` in
`compiler/compiler_test.go` (expected constants there: `{2, 1}`). -/
def testLessThanBytes : List Nat :=
  make opConstant [0] ++ make opConstant [1] ++ make opGreaterThan [] ++ make opPop []

/-! ### Auxiliary predicates and concrete states used by the theorems -/

/-- Does a Go object value hold an `*object.Integer`? -/
def isIntGoObj : GoObj → Bool
  | some (.integer _) => true
  | _ => false

/-- Did this outcome end in a Go runtime panic? -/
def Res.isPanic : Res α → Bool
  | .panicked _ => true
  | _ => false

/-- A lexer that has consumed its whole input: the current character is the
NUL sentinel and `readPosition` is past the end.  `Lexer.NextToken` returns
EOF tokens forever from such a state. -/
def lexExhausted (l : Lexer) : Prop :=
  l.ch = nul ∧ l.input.length ≤ l.readPosition

instance (l : Lexer) : Decidable (lexExhausted l) := by
  unfold lexExhausted
  infer_instance

/-- A two-slot stack holding a one-parameter closure and one argument. -/
def c3Stack : Nat → GoObj := fun i =>
  if i = 0 then some (.closure ⟨[], 2, 1⟩ []) else
  if i = 1 then some (.integer 7) else none

def c3State : FrameVMState := { stack := c3Stack, sp := 2, frames := [] }

/-- A stack holding the Integers 2 and 3. -/
def c4IntState : VMState := { newVM [] [] with
  stack := fun i => if i = 0 then some (.integer 2) else
    if i = 1 then some (.integer 3) else none,
  sp := 2 }

/-- A stack holding a String under an Integer. -/
def c4StrState : VMState := { newVM [] [] with
  stack := fun i => if i = 0 then some (.str "a") else
    if i = 1 then some (.integer 1) else none,
  sp := 2 }

/-- A stack holding the Integer 1 under the Boolean true. -/
def c5State : VMState := { newVM [] [] with
  stack := fun i => if i = 0 then some (.integer 1) else
    if i = 1 then some (.boolean true) else none,
  sp := 2 }

/-- A one-element stack holding the Integer 9. -/
def c7State : VMState := { newVM [] [] with
  stack := fun i => if i = 0 then some (.integer 9) else none, sp := 1 }

/-! ### Helper lemmas -/

/-- A panicked outcome is not an error return. -/
theorem Res.isPanic_ne_err {α : Type} (x : Res α) (h : x.isPanic = true)
    (m : String) : x ≠ .err m := by
  cases x <;> simp [Res.isPanic] at h ⊢

/-- A panic propagates through `bind`. -/
theorem Res.bind_panic {α β : Type} (x : Res α) (k : α → Res β)
    (h : x.isPanic = true) : (x.bind k).isPanic = true := by
  cases x <;> simp [Res.bind, Res.isPanic] at h ⊢

/-- Asserting `*object.Integer` on a non-Integer value panics. -/
theorem typeAssertInteger_nonint (o : GoObj) (h : isIntGoObj o = false) :
    (typeAssertInteger o).isPanic = true := by
  rcases o with _ | o
  · simp [typeAssertInteger, Res.isPanic]
  · cases o <;>
      solve
        | simp [isIntGoObj] at h
        | simp [typeAssertInteger, Res.isPanic]

/-- An Integer-holding object value is `some (Obj.integer a)`. -/
theorem isIntGoObj_true (o : GoObj) (h : isIntGoObj o = true) :
    ∃ a, o = some (Obj.integer a) := by
  rcases o with _ | o
  · simp [isIntGoObj] at h
  · cases o <;>
      solve
        | simp [isIntGoObj] at h
        | exact ⟨_, rfl⟩

/-- A non-Integer object's type tag is not INTEGER. -/
theorem typeTag_nonint (o : Obj) (h : isIntGoObj (some o) = false) :
    o.typeTag ≠ "INTEGER" := by
  cases o <;>
    solve
      | simp [isIntGoObj] at h
      | simp [Obj.typeTag]

/-- From an exhausted lexer, `NextToken` yields the EOF token and leaves the
lexer exhausted. -/
theorem nextToken_exhausted (l : Lexer) (h : lexExhausted l) :
    nextToken l = ({ type := "EOF", literal := "" }, readChar l)
    ∧ lexExhausted (readChar l) := by
  obtain ⟨hch, hpos⟩ := h
  have hskip : skipWhiteSpace (l.input.length + 2) l = l := by
    unfold skipWhiteSpace
    simp [hch, nul]
  constructor
  · unfold nextToken
    rw [hskip]
    simp [hch, nul]
  · refine ⟨?_, ?_⟩
    · unfold readChar
      simp [Nat.not_lt.mpr hpos]
    · unfold readChar
      simp
      omega

/-- From an exhausted lexer, `Parser.nextToken` shifts `peek` into `cur` and
makes `peek` the EOF token. -/
theorem nextTokenP_exhausted (p : Parser) (h : lexExhausted p.l) :
    nextTokenP p = { p with l := readChar p.l, curToken := p.peekToken,
                            peekToken := ⟨"EOF", ""⟩ }
    ∧ lexExhausted (readChar p.l) := by
  have hnt := nextToken_exhausted p.l h
  exact ⟨by simp [nextTokenP, hnt.1], hnt.2⟩

/-- The semicolon-skipping loop of `parseReturnStatement` never terminates
once the current and peek tokens are non-semicolons and the lexer is
exhausted: it returns `none` at every fuel. -/
theorem skipToSemicolon_stuck : ∀ (fuel : Nat) (p : Parser),
    p.curToken.type ≠ ";" → p.peekToken.type ≠ ";" → lexExhausted p.l →
    skipToSemicolon fuel p = none := by
  intro fuel
  induction fuel with
  | zero =>
      intro p hc _ _
      simp [skipToSemicolon, hc]
  | succ f ih =>
      intro p hc hp hl
      have hnt := nextTokenP_exhausted p hl
      rw [show skipToSemicolon (f + 1) p = skipToSemicolon f (nextTokenP p) by
        simp [skipToSemicolon, hc]]
      rw [hnt.1]
      apply ih
      · exact hp
      · show ("EOF" : String) ≠ ";"
        decide
      · exact hnt.2

/-! ### The claims -/

/-- Claim C1: for every infix expression with operator `<`, the compiler
emits the compiled right operand first, then the compiled left operand, then
`OpGreaterThan`; the instruction set of `code/code.go` defines no
`OpLessThan`; and `1 < 2`, parsed and compiled, yields the constants `2`
then `1` followed by `OpConstant 0, OpConstant 1, OpGreaterThan, OpPop`,
matching `TestBooleanExpressions`. -/
theorem C1_less_than_reorders_operands :
    (∀ (l r : Option Expr) (consts : List GoObj),
      compileExpr (.infixE "<" l r) consts =
        (compileOExpr r consts).bind fun rc =>
        (compileOExpr l rc.2).bind fun lc =>
        .ok (rc.1 ++ lc.1 ++ make opGreaterThan [], lc.2))
    ∧ definitions.all (fun d => !(d.2.name == "OpLessThan")) = true
    ∧ (parsedStmts 99 "1 < 2".data).map (fun stmts => compileProgram stmts []) =
        some (.ok (testLessThanBytes, [some (.integer 2), some (.integer 1)])) :=
  ⟨fun _ _ _ => rfl, by decide, rfl⟩

/-- Witness for C1: the `<` compilation equation evaluated at `1 < 2`. -/
theorem C1_less_than_reorders_operands_witness :
    compileExpr (.infixE "<" (some (.intLit "1" 1)) (some (.intLit "2" 2))) [] =
      .ok (make opConstant [0] ++ make opConstant [1] ++ make opGreaterThan [],
           [some (.integer 2), some (.integer 1)]) := by
  rw [C1_less_than_reorders_operands.1]
  rfl

/-- Claim C2 (counterexample): the instruction sequence the repository's own
`TestConditionals` expects for `if(true) { 10; } 3333;` is not the sequence
the claim lists (`OpTrue, OpJumpNotTruthy 10, OpConstant 0, OpJump 11,
OpNull, OpPop, OpConstant 1, OpPop`). -/
theorem C2_no_opnull_counterexample :
    testConditionalsNoElse ≠ claimedConditionalNoElse := by decide

/-- Claim C2 (amended): per `TestConditionals`, compiling
`if(true) { 10; } 3333;` produces `OpTrue, OpJumpNotTruthy 7, OpConstant 0,
OpPop, OpConstant 1, OpPop` at byte offsets 0, 1, 4, 7, 8, 11 — an
if-expression without an else branch jumps straight past the consequence and
emits no `OpJump`/`OpNull`. -/
theorem C2_conditional_bytes :
    testConditionalsNoElse = [6, 13, 0, 7, 0, 0, 0, 5, 0, 0, 1, 5]
    ∧ instructionOffsets 20 testConditionalsNoElse 0 = [0, 1, 4, 7, 8, 11]
    ∧ testConditionalsNoElse.length = 12 := by
  refine ⟨by decide, by decide, by decide⟩

/-- Claim C3: executing `OpCall argc` with a Closure callee on the stack
requires `argc` to equal the function's parameter count, failing with
`wrong number of arguments: want=P, got=A` otherwise; on success a new frame
with `base_pointer = sp - argc` and `ip = -1` is pushed and `sp` becomes
`base_pointer + num_locals` (an advance of `num_locals - argc`). -/
theorem C3_opcall_closure (vm : FrameVMState) (argc : Nat)
    (fn : CompiledFunction) (free : List Obj)
    (hcallee : vm.stack (vm.sp - 1 - argc) = some (.closure fn free)) :
    (argc ≠ fn.numParameters →
      executeOpCall vm argc = .err ("wrong number of arguments: want=" ++
        toString fn.numParameters ++ ", got=" ++ toString argc))
    ∧ (argc = fn.numParameters →
      executeOpCall vm argc = .ok { vm with
        frames := { clFn := fn, clFree := free, ip := -1,
                    basePointer := vm.sp - argc } :: vm.frames,
        sp := vm.sp - argc + fn.numLocals }) := by
  unfold executeOpCall
  rw [hcallee]
  constructor
  · intro h
    simp [h]
  · intro h
    simp [h, NewFrame]

/-- Witness for C3 at a concrete call: a closure of one parameter and two
locals called with one argument. -/
theorem C3_opcall_closure_witness :
    executeOpCall c3State 1 = .ok { c3State with
      frames := [{ clFn := ⟨[], 2, 1⟩, clFree := [], ip := -1, basePointer := 1 }],
      sp := 3 } :=
  (C3_opcall_closure c3State 1 ⟨[], 2, 1⟩ [] rfl).2 rfl

/-- Claim C4 (counterexample): with two String operands, `OpAdd` does not
push a concatenation — the run fails with
`unsupported types for binary operation: STRING STRING` (the claim's string
clause is false on this VM). -/
theorem C4_string_add_counterexample :
    run 10 (newVM [some (.str "mon"), some (.str "key")]
        (make opConstant [0] ++ make opConstant [1] ++ make opAdd [])) 0 =
      .err "unsupported types for binary operation: STRING STRING" := rfl

/-- Claim C4 (amended): for `OpAdd`/`OpSub`/`OpMul`/`OpDiv`, if both popped
operands are Integers the Go `int64` result is computed and pushed (with
`OpDiv` panicking on a zero divisor, handled by the division claim); in
every other case — two Strings included — the run fails with
`unsupported types for binary operation: L R`. -/
theorem C4_binary_op_types (vm : VMState) (op : Nat) (lo ro : Obj)
    (hsp : 2 ≤ vm.sp) (hcap : vm.sp ≤ StackSize)
    (hl : vm.stack (vm.sp - 2) = some lo) (hr : vm.stack (vm.sp - 1) = some ro) :
    (∀ a b res, lo = .integer a → ro = .integer b →
      goIntBinary op a b = .ok res →
      executeBinaryOperation vm op = .ok { vm with
        stack := writeSlot vm.stack (vm.sp - 2) (some (.integer res)),
        sp := vm.sp - 1 })
    ∧ (lo.typeTag ≠ "INTEGER" ∨ ro.typeTag ≠ "INTEGER" →
      executeBinaryOperation vm op =
        .err ("unsupported types for binary operation: " ++
          lo.typeTag ++ " " ++ ro.typeTag)) := by
  have h1 : vm.sp ≠ 0 := by omega
  have h2 : vm.sp - 1 ≠ 0 := by omega
  have h3 : vm.sp - 1 - 1 = vm.sp - 2 := by omega
  constructor
  · rintro a b res rfl rfl hbin
    have h4 : ¬ StackSize ≤ vm.sp - 2 := by unfold StackSize at hcap ⊢; omega
    have h5 : vm.sp - 2 + 1 = vm.sp - 1 := by omega
    simp [executeBinaryOperation, pop, h1, h2, Res.bind, h3, hl, hr, goType,
      Obj.typeTag, executeBinaryIntegerOperation, typeAssertInteger, hbin, push,
      h4, h5]
  · intro hmix
    have hne : ¬ (lo.typeTag = "INTEGER" ∧ ro.typeTag = "INTEGER") := by
      rcases hmix with h | h
      · exact fun hc => h hc.1
      · exact fun hc => h hc.2
    simp [executeBinaryOperation, pop, h1, h2, Res.bind, h3, hl, hr, goType, hne]

/-- Witness for C4: `2 + 3` pushes `5`; String plus Integer is the
`unsupported types` error. -/
theorem C4_binary_op_types_witness :
    executeBinaryOperation c4IntState opAdd = .ok { c4IntState with
      stack := writeSlot c4IntState.stack 0 (some (.integer 5)), sp := 1 }
    ∧ executeBinaryOperation c4StrState opAdd =
        .err "unsupported types for binary operation: STRING INTEGER" := by
  constructor
  · exact (C4_binary_op_types c4IntState opAdd (.integer 2) (.integer 3)
      (by decide) (by decide) rfl rfl).1 2 3 5 rfl rfl rfl
  · exact (C4_binary_op_types c4StrState opAdd (.str "a") (.integer 1)
      (by decide) (by decide) rfl rfl).2 (Or.inl (by decide))

/-- Claim C5 (counterexample to the claim as stated): comparing `1 == true`
does not return an error — the run panics with a failed interface
conversion. -/
theorem C5_mixed_comparison_counterexample :
    run 10 (newVM [some (.integer 1)]
        (make opConstant [0] ++ make opTrue [] ++ make opEqual [])) 0 =
      .panicked "interface conversion: object.Object is *object.Boolean, not *object.Integer" := rfl

/-- Claim C5 (amended): executing `OpEqual`/`OpNotEqual`/`OpGreaterThan`
with exactly one Integer among the two popped operands makes the VM panic —
a failed `*object.Integer` type assertion (or nil dereference) inside the
integer-comparison path — rather than return an error. -/
theorem C5_mixed_comparison_panics (vm : VMState) (op : Nat) (lo ro : GoObj)
    (hsp : 2 ≤ vm.sp)
    (hl : vm.stack (vm.sp - 2) = lo) (hr : vm.stack (vm.sp - 1) = ro)
    (hmix : isIntGoObj lo ≠ isIntGoObj ro) :
    (executeComparison vm op).isPanic = true
    ∧ ∀ m, executeComparison vm op ≠ .err m := by
  have h1 : vm.sp ≠ 0 := by omega
  have h2 : vm.sp - 1 ≠ 0 := by omega
  have h3 : vm.sp - 1 - 1 = vm.sp - 2 := by omega
  have key : (executeComparison vm op).isPanic = true := by
    by_cases hli : isIntGoObj lo = true
    · obtain ⟨a, rfl⟩ := isIntGoObj_true lo hli
      have hri : isIntGoObj ro = false := by
        cases hro : isIntGoObj ro
        · rfl
        · rw [hli, hro] at hmix
          exact absurd rfl hmix
      have hred : executeComparison vm op =
          executeIntegerComparison { vm with sp := vm.sp - 2 } op
            (some (.integer a)) ro := by
        simp [executeComparison, pop, h1, h2, Res.bind, h3, hl, hr, goType,
          Obj.typeTag]
      rw [hred]
      unfold executeIntegerComparison
      simp only [typeAssertInteger, Res.bind]
      exact Res.bind_panic _ _ (typeAssertInteger_nonint ro hri)
    · have hlf : isIntGoObj lo = false := by
        cases hlo : isIntGoObj lo
        · rfl
        · exact absurd hlo hli
      have hri : isIntGoObj ro = true := by
        cases hro : isIntGoObj ro
        · rw [hlf, hro] at hmix
          exact absurd rfl hmix
        · rfl
      obtain ⟨b, rfl⟩ := isIntGoObj_true ro hri
      rcases lo with _ | lo
      · simp [executeComparison, pop, h1, h2, Res.bind, h3, hl, hr, goType,
          Res.isPanic]
      · have htag := typeTag_nonint lo hlf
        have hred : executeComparison vm op =
            executeIntegerComparison { vm with sp := vm.sp - 2 } op
              (some lo) (some (.integer b)) := by
          simp [executeComparison, pop, h1, h2, Res.bind, h3, hl, hr, goType,
            Obj.typeTag, htag]
        rw [hred]
        unfold executeIntegerComparison
        exact Res.bind_panic _ _ (typeAssertInteger_nonint (some lo) hlf)
  exact ⟨key, fun m => Res.isPanic_ne_err _ key m⟩

/-- Witness for C5 at a concrete mixed comparison (`1` against `true`). -/
theorem C5_mixed_comparison_panics_witness :
    (executeComparison c5State opEqual).isPanic = true
    ∧ ∀ m, executeComparison c5State opEqual ≠ .err m :=
  C5_mixed_comparison_panics c5State opEqual (some (.integer 1)) (some (.boolean true))
    (by decide) rfl rfl (by decide)

/-- Claim C6: the parser builds the correctly nested AST, but the repository
`InfixExpression.String` (its parentheses commented out) prints `-a * b` as
`(-a) * b` and `a + b * c + d / e - f` as itself — not the fully
parenthesised strings the claim (and the repository's own
`TestOperatorPrecedenceParsing`) expect. -/
theorem C6_ast_string_missing_parens :
    (parsedStmts 99 "-a * b".data).map programString = some (some "(-a) * b")
    ∧ (parsedStmts 999 "a + b * c + d / e - f".data).map programString
        = some (some "a + b * c + d / e - f")
    ∧ parsedStmts 99 "-a * b".data =
        some [.exprStmt (some (.infixE "*"
          (some (.prefixE "-" (some (.identE "a")))) (some (.identE "b"))))]
    ∧ "(-a) * b" ≠ "((-a) * b)" :=
  ⟨rfl, rfl, rfl, by decide⟩

/-- Claim C7: `pop` only decrements `sp` and leaves the popped value in
`stack[sp]`; `LastPoppedStackElem` reads `stack[sp]`; and a run ending in
`OpPop` exposes the last expression value there. -/
theorem C7_pop_slot_invariant :
    (∀ vm : VMState, lastPoppedStackElem vm = vm.stack vm.sp)
    ∧ (∀ (vm vm' : VMState) (o : GoObj), pop vm = .ok (o, vm') →
        o = vm.stack (vm.sp - 1) ∧ vm'.stack = vm.stack ∧ vm'.sp = vm.sp - 1 ∧
        lastPoppedStackElem vm' = o)
    ∧ runLastPopped (run 10 (newVM [some (.integer 42)]
        (make opConstant [0] ++ make opPop [])) 0) = some (some (.integer 42)) := by
  refine ⟨fun _ => rfl, ?_, rfl⟩
  intro vm vm' o h
  unfold pop at h
  by_cases hsp : vm.sp = 0
  · simp [hsp] at h
  · simp [hsp] at h
    obtain ⟨ho, hvm⟩ := h
    subst hvm
    exact ⟨ho.symm, rfl, rfl, ho⟩

/-- Witness for C7: popping a concrete one-element stack. -/
theorem C7_pop_slot_invariant_witness :
    some (Obj.integer 9) = c7State.stack (c7State.sp - 1)
    ∧ ({ c7State with sp := 0 } : VMState).stack = c7State.stack
    ∧ ({ c7State with sp := 0 } : VMState).sp = c7State.sp - 1
    ∧ lastPoppedStackElem { c7State with sp := 0 } = some (Obj.integer 9) :=
  C7_pop_slot_invariant.2.1 c7State { c7State with sp := 0 } (some (.integer 9)) rfl

/-- Claim C8: both backends divide with Go's unguarded `int64` division —
the truncated quotient when the divisor is nonzero, a runtime panic (not an
error return, not an `Error` value) when it is zero. -/
theorem C8_division_truncates_and_panics :
    (∀ (vm : VMState) (a : Int),
      executeBinaryIntegerOperation vm opDiv (some (.integer a)) (some (.integer 0)) =
        .panicked "runtime error: integer divide by zero")
    ∧ (∀ (vm : VMState) (a b : Int), b ≠ 0 → vm.sp < StackSize →
      executeBinaryIntegerOperation vm opDiv (some (.integer a)) (some (.integer b)) =
        .ok { vm with
          stack := writeSlot vm.stack vm.sp (some (.integer (wrap64 (Int.tdiv a b)))),
          sp := vm.sp + 1 })
    ∧ (∀ a : Int, evalIntegerInfixExpression "/" (some (.integer a)) (some (.integer 0)) =
        .panicked "runtime error: integer divide by zero")
    ∧ (∀ a b : Int, b ≠ 0 →
        evalIntegerInfixExpression "/" (some (.integer a)) (some (.integer b)) =
          .ok (.integer (wrap64 (Int.tdiv a b)))) := by
  refine ⟨?_, ?_, ?_, ?_⟩
  · intro vm a
    simp [executeBinaryIntegerOperation, typeAssertInteger, Res.bind, goIntBinary,
      goDiv, opAdd, opSub, opMul, opDiv]
  · intro vm a b hb hcap
    simp [executeBinaryIntegerOperation, typeAssertInteger, Res.bind, goIntBinary,
      goDiv, opAdd, opSub, opMul, opDiv, hb, push, Nat.not_le.mpr hcap]
  · intro a
    simp [evalIntegerInfixExpression, typeAssertInteger, Res.bind, goDiv]
  · intro a b hb
    simp [evalIntegerInfixExpression, typeAssertInteger, Res.bind, goDiv, hb]

/-- Witness for C8: `7 / 2 = 3`, `7 / 0` panics. -/
theorem C8_division_witness :
    evalIntegerInfixExpression "/" (some (.integer 7)) (some (.integer 2)) =
      .ok (.integer 3)
    ∧ evalIntegerInfixExpression "/" (some (.integer 7)) (some (.integer 0)) =
      .panicked "runtime error: integer divide by zero" := by
  constructor
  · have h := C8_division_truncates_and_panics.2.2.2 7 2 (by decide)
    rwa [show wrap64 (Int.tdiv 7 2) = 3 by decide] at h
  · exact C8_division_truncates_and_panics.2.2.1 7

/-- Claim C9: `pop` has no underflow check — at `sp = 0` it panics reading
`stack[-1]`; it can never return an error, and a bytecode that pops an empty
stack (`OpPop` or `OpAdd` first) crashes the run instead of failing with a
reported error. -/
theorem C9_pop_no_underflow_check :
    (∀ vm : VMState, vm.sp = 0 →
      pop vm = .panicked "runtime error: index out of range [-1]")
    ∧ (∀ (vm : VMState) (m : String), pop vm ≠ .err m)
    ∧ run 2 (newVM [] (make opPop [])) 0 =
        .panicked "runtime error: index out of range [-1]"
    ∧ run 2 (newVM [] (make opAdd [])) 0 =
        .panicked "runtime error: index out of range [-1]" := by
  refine ⟨?_, ?_, rfl, rfl⟩
  · intro vm h
    simp [pop, h]
  · intro vm m h
    unfold pop at h
    by_cases hsp : vm.sp = 0 <;> simp [hsp] at h

/-- Witness for C9 on the empty VM. -/
theorem C9_pop_no_underflow_check_witness :
    pop (newVM [] []) = .panicked "runtime error: index out of range [-1]"
    ∧ pop (newVM [] []) ≠ Res.err "stack underflow" :=
  ⟨C9_pop_no_underflow_check.1 (newVM [] []) rfl,
   C9_pop_no_underflow_check.2.1 (newVM [] []) "stack underflow"⟩

/-- Claim C10: `ParseProgram` on `return 5` (final return statement without
a trailing semicolon) does not terminate — at every fuel the embedded parser
reports fuel exhaustion, because `parseReturnStatement` spins on the
endless EOF tokens; with the semicolon present the same program parses. -/
theorem C10_return_without_semicolon_diverges :
    (∀ fuel, parseProgram fuel (parserNew (lexerNew ("return 5".data))) = none)
    ∧ parsedStmts 30 ("return 5;".data) =
        some [Stmt.returnStmt (some (Expr.intLit "5" 5))] := by
  constructor
  · intro fuel
    rcases Nat.lt_or_ge fuel 5 with hf | hf
    · interval_cases fuel <;> rfl
    · obtain ⟨n, rfl⟩ : ∃ n, fuel = n + 5 := ⟨fuel - 5, by omega⟩
      have hstuck := skipToSemicolon_stuck (n + 2)
        (nextTokenP (parserNew (lexerNew ("return 5".data))))
        (by decide) (by decide) (by decide)
      calc parseProgram (n + 5) (parserNew (lexerNew ("return 5".data)))
          = ((skipToSemicolon (n + 2)
                (nextTokenP (parserNew (lexerNew ("return 5".data))))).map
              (fun p4 => (Stmt.returnStmt (some (Expr.intLit "5" 5)), p4))).bind
              (fun sp => (parseProgram (n + 4) (nextTokenP sp.2)).map
                (fun rest => (sp.1 :: rest.1, rest.2))) := rfl
        _ = none := by rw [hstuck]; rfl
  · rfl

/-- Witness for C10: the divergence instantiated at fuel 42. -/
theorem C10_return_without_semicolon_diverges_witness :
    parseProgram 42 (parserNew (lexerNew ("return 5".data))) = none :=
  C10_return_without_semicolon_diverges.1 42

end Monkey
